import Mathlib

/-
Verification of the LogicMonitor Ansible modules
(lib/ansible/modules/monitoring/…).

The modules are desired-state reconcilers: build a desired resource, look
up the remote resource, diff, and issue create/update/delete calls.  The
development below embeds the Python functions shallowly:

* flattened objects (the result of `to_dict()`) are association lists of
  stringified field values, `none` standing for Python `None`;
* the REST client is a deterministic test server: every mutating call
  succeeds with status 200, assigns fresh ids, and is recorded in a call
  trace, so frame properties ("no call is issued") are statements about
  the trace;
* response-status handling (`add_obj`, `find_collector_by_id`) is embedded
  separately as pure functions of the response, returning `Except`;
* the recursive `create_device_group` takes an explicit fuel argument;
  a theorem shows that fuel equal to the number of path segments always
  suffices, which is the termination argument of the original recursion.
-/

/-- PyDict is a flattened object: field name to optional stringified value.
Python `None` is `none`; any other value is kept through its `str(...)`
rendering, which is the only way the comparator consumes values. -/
abbrev PyDict := List (String × Option String)

/-- pyGet models `k in d` plus `d[k]`: `none` when the key is absent,
`some v` when present with value `v`. -/
def pyGet (d : PyDict) (k : String) : Option (Option String) :=
  (d.find? (fun kv => kv.1 == k)).map (fun kv => kv.2)

/-- compare_objects: the generic two-loop comparator shared verbatim by the
modules (logicmonitor_device_group.py, logicmonitor/logicmonitor_collector_sdt.py,
…); `exclude_keys` is the per-module exclusion set.  A field counts only if it
is present with a non-None value in both dictionaries and not excluded; a
single string mismatch yields False. -/
def compare_objects_ex (dict_1 dict_2 : PyDict) (exclude_keys : List String) : Bool :=
  (dict_1.all (fun kv =>
    if exclude_keys.contains kv.1 then true
    else
      match pyGet dict_1 kv.1, pyGet dict_2 kv.1 with
      | some (some v1), some (some v2) => v1 == v2
      | _, _ => true)) &&
  (dict_2.all (fun kv =>
    if exclude_keys.contains kv.1 then true
    else
      match pyGet dict_2 kv.1, pyGet dict_1 kv.1 with
      | some (some v2), some (some v1) => v1 == v2
      | _, _ => true))

/-- splitChar is Python `s.split('/')` on the character list of a string:
"A/B".split('/') = ["A","B"], "".split('/') = [""], "/A".split('/') = ["","A"]. -/
def splitChar : List Char → List (List Char)
  | [] => [[]]
  | c :: rest =>
    if c = '/' then [] :: splitChar rest
    else
      match splitChar rest with
      | [] => [[c]]
      | h :: t => (c :: h) :: t

/-- joinChar is the '/'-join of a list of segments, the inverse of splitChar. -/
def joinChar : List (List Char) → List Char
  | [] => []
  | [x] => x
  | x :: y :: t => x ++ '/' :: joinChar (y :: t)

/-- lstripSlash is Python `s.lstrip('/')`: drop every leading slash. -/
def lstripSlash (s : String) : String :=
  String.mk (s.data.dropWhile (fun c => c == '/'))

/-- parentPath mirrors `'/'.join(s.rsplit('/')[0:-1])`: the path with its
last '/'-separated segment removed. -/
def parentPath (s : String) : String :=
  String.mk (joinChar (splitChar s.data).dropLast)

/-- lastSegStr mirrors `s.rsplit('/', 1)[-1]`: the last '/'-separated segment. -/
def lastSegStr (s : String) : String :=
  String.mk ((splitChar s.data).getLastD [])

/-- numSegs is the number of '/'-separated segments of a path, the measure
that the recursion of `create_device_group` strictly decreases. -/
def numSegs (s : String) : Nat :=
  (splitChar s.data).length

/-- DeviceGroup mirrors logicmonitor.RestDeviceGroup as used by
logicmonitor_device_group.py: the fields the module constructs, plus the
server-assigned id, name and parent_id, which start out as Python None. -/
structure DeviceGroup where
  custom_properties : List (String × String) := []
  description : String := ""
  disable_alerting : Bool := false
  full_path : String := ""
  group_type : String := "Normal"
  applies_to : Option String := none
  id : Option Nat := none
  name : Option String := none
  parent_id : Option Nat := none
deriving DecidableEq, Repr

/-- pyStrBool renders a Python bool through str(...). -/
def pyStrBool (b : Bool) : String := if b then "True" else "False"

/-- pyStrProps renders the custom-properties list through str(...); the exact
text is immaterial, the comparator only tests it for string equality. -/
def pyStrProps (l : List (String × String)) : String :=
  String.intercalate "," (l.map (fun kv => kv.1 ++ "=" ++ kv.2))

/-- to_dict flattens a RestDeviceGroup, with values stringified the way the
comparator sees them (str is applied lazily in compare_objects). -/
def DeviceGroup.to_dict (g : DeviceGroup) : PyDict :=
  [("applies_to", g.applies_to),
   ("custom_properties", some (pyStrProps g.custom_properties)),
   ("description", some g.description),
   ("disable_alerting", some (pyStrBool g.disable_alerting)),
   ("full_path", some g.full_path),
   ("group_type", some g.group_type),
   ("id", g.id.map toString),
   ("name", g.name),
   ("parent_id", g.parent_id.map toString)]

namespace LMDeviceGroupOld

/-- DGParams is the declarative input of logicmonitor_device_group.py that
reaches get_object, ensure_present and ensure_absent. -/
structure DGParams where
  properties : List (String × String) := []
  description : String := ""
  disable_alerting : Bool := false
  full_path : String := ""
  applies_to : Option String := none
deriving DecidableEq, Repr

/-- format_custom_properties maps str(k)/str(v) over the properties mapping
(keys and values are already strings at this layer). -/
def format_custom_properties (properties : List (String × String)) : List (String × String) :=
  properties.map (fun kv => (kv.1, kv.2))

/-- get_object builds the desired RestDeviceGroup; the leading '/' of
full_path is stripped, group_type is Normal, and applies_to is set only
when the parameter is truthy. -/
def get_object (p : DGParams) : DeviceGroup :=
  let base : DeviceGroup :=
    { custom_properties := format_custom_properties p.properties
      description := p.description
      disable_alerting := p.disable_alerting
      full_path := lstripSlash p.full_path
      group_type := "Normal" }
  match p.applies_to with
  | some a => if a ≠ "" then { base with applies_to := some a } else base
  | none => base

/-- set_update_fields copies the immutable server fields onto the desired
object before an update. -/
def set_update_fields (obj_1 obj_2 : DeviceGroup) : DeviceGroup :=
  { obj_1 with id := obj_2.id, name := obj_2.name, parent_id := obj_2.parent_id }

/-- compare_obj delegates to compare_objects; this module uses the empty
exclusion set. -/
def compare_obj (obj_1 obj_2 : DeviceGroup) : Bool :=
  compare_objects_ex obj_1.to_dict obj_2.to_dict []

/-- DGAction is one API mutation issued to the client. -/
inductive DGAction where
  | create (name : Option String) (full_path : String) (parent_id : Option Nat)
  | update (id : Option Nat)
  | delete (id : Option Nat)
deriving DecidableEq, Repr

/-- DGState is the deterministic test server: the remote device-group
collection, a fresh-id counter and the trace of mutating calls. -/
structure DGState where
  remote : List DeviceGroup := []
  nextId : Nat := 1
  calls : List DGAction := []
deriving DecidableEq, Repr

/-- find_obj fetches the collection and linearly scans for an exact match on
the '/'-lstripped path (get_device_group_list always succeeds here). -/
def find_obj (st : DGState) (full_path : String) : Option DeviceGroup :=
  st.remote.find? (fun item => item.full_path == lstripSlash full_path)

/-- add_obj against the deterministic server: the create call succeeds with
status 200, the stored object is the request plus a fresh server-assigned
id, and resp.data (the stored object) is returned. -/
def add_obj (st : DGState) (device_group : DeviceGroup) : DGState × DeviceGroup :=
  let stored := { device_group with id := some st.nextId }
  ({ remote := st.remote ++ [stored]
     nextId := st.nextId + 1
     calls := st.calls ++
       [DGAction.create device_group.name device_group.full_path device_group.parent_id] },
   stored)

/-- create_device_group, the recursive path materializer: set the name from
the last path segment, resolve the parent (root id 1 for an empty parent
path, else look it up, else recursively materialize it), then add.  The
Python recursion on the parent path is made structural with fuel; the c3
theorem proves that numSegs of the path always suffices, which is the
termination measure of the original recursion. -/
def create_device_group : Nat → DGState → DeviceGroup → Option (DGState × DeviceGroup)
  | 0, _, _ => none
  | fuel + 1, st, device_group0 =>
    let device_group := { device_group0 with name := some (lastSegStr device_group0.full_path) }
    let parent_path := parentPath device_group.full_path
    if parent_path = "" then
      some (add_obj st { device_group with parent_id := some 1 })
    else
      match find_obj st parent_path with
      | some parent_group =>
        some (add_obj st { device_group with parent_id := parent_group.id })
      | none =>
        match create_device_group fuel st { device_group with full_path := parent_path } with
        | some (st2, parent) =>
          some (add_obj st2 { device_group with parent_id := parent.id })
        | none => none

/-- update_obj against the deterministic server: replaces the remote objects
carrying the id of the request and logs the call. -/
def update_obj (st : DGState) (device_group : DeviceGroup) : DGState :=
  { st with
    remote := st.remote.map (fun item => if item.id == device_group.id then device_group else item)
    calls := st.calls ++ [DGAction.update device_group.id] }

/-- delete_obj against the deterministic server. -/
def delete_obj (st : DGState) (device_group : DeviceGroup) : DGState :=
  { st with
    remote := st.remote.filter (fun item => !(item.id == device_group.id))
    calls := st.calls ++ [DGAction.delete device_group.id] }

/-- ensure_present of the device-group module: find, then create (with
parent materialization) or update or no-op; check mode suppresses the
mutating calls but reports the same verdict.  Returns the final server
state and the reported changed flag; none only on fuel exhaustion, which
the c3 theorem rules out. -/
def ensure_present (check : Bool) (p : DGParams) (st : DGState) : Option (DGState × Bool) :=
  let obj := get_object p
  match find_obj st obj.full_path with
  | none =>
    if check then some (st, true)
    else
      match create_device_group (numSegs obj.full_path) st obj with
      | some (st2, _) => some (st2, true)
      | none => none
  | some found_obj =>
    if !(compare_obj obj found_obj) then
      if check then some (st, true)
      else some (update_obj st (set_update_fields obj found_obj), true)
    else some (st, false)

/-- ensure_absent of the device-group module: not-found is a no-op with
changed false, otherwise delete (suppressed in check mode) with changed
true. -/
def ensure_absent (check : Bool) (p : DGParams) (st : DGState) : DGState × Bool :=
  match find_obj st p.full_path with
  | none => (st, false)
  | some obj =>
    if check then (st, true)
    else (delete_obj st obj, true)

end LMDeviceGroupOld

/-- DGResp is a raw API response of the device-group endpoints. -/
structure DGResp where
  status : Nat
  data : DeviceGroup
  errmsg : String
deriving DecidableEq, Repr

/-- add_obj_resp is add_obj of the device-group module as a function of the
response of client.add_device_group: status 600 (the record already exists)
is benign and returns the original request object; any other non-200 status
is fatal; status 200 returns resp.data. -/
def LMDeviceGroupOld.add_obj_resp (resp : DGResp) (device_group : DeviceGroup) :
    Except String DeviceGroup :=
  if resp.status ≠ 200 then
    if resp.status = 600 then Except.ok device_group
    else
      Except.error ("Status " ++ toString resp.status ++ " calling add_device_group\n" ++
        resp.errmsg)
  else Except.ok resp.data

/-- pyTruthyNat is Python truthiness of an optional int (None and 0 are
falsy). -/
def pyTruthyNat : Option Nat → Bool
  | none => false
  | some n => n != 0

/-- pyTruthyStr is Python truthiness of an optional string (None and the
empty string are falsy). -/
def pyTruthyStr : Option String → Bool
  | none => false
  | some s => s != ""

/-- CAction is one external call issued by a collector or SDT module: an API
mutation or a local installer step. -/
inductive CAction where
  | add
  | update (id : Option Nat)
  | delete (id : Option Nat)
  | uninstall
  | install
deriving DecidableEq, Repr

/-- CResult is the outcome of a collector module run: the ordered external
calls, the reported changed flag (or the fatal error message), and the
final local install state. -/
structure CResult where
  actions : List CAction
  result : Except String Bool
  installed : Bool
deriving Repr

namespace LMSdt

/-- Sdt mirrors the one-time SDT resource of
logicmonitor/logicmonitor_collector_sdt.py as far as ensure_absent and
add_obj consume it. -/
structure Sdt where
  id : Option Nat := none
  comment : String := ""
deriving DecidableEq, Repr

/-- SdtResp is a raw API response of the SDT endpoints. -/
structure SdtResp where
  status : Nat
  data : Sdt
  errmsg : String
deriving DecidableEq, Repr

/-- add_obj_resp is add_obj of the collector-SDT module as a function of the
response of client.add_sdt: unlike the other modules there is no carve-out
for status 600, so every non-200 status, 600 included, is fatal. -/
def add_obj_resp (resp : SdtResp) (sdt : Sdt) : Except String Sdt :=
  if resp.status ≠ 200 then
    Except.error ("Status " ++ toString resp.status ++ " calling add_sdt\n" ++ resp.errmsg)
  else Except.ok resp.data

/-- ensure_absent of the collector-SDT module: not-found reports changed
false with no call; found deletes (suppressed in check mode) with changed
true. -/
def ensure_absent (check : Bool) (found : Option Sdt) : List CAction × Bool :=
  match found with
  | none => ([], false)
  | some obj => if !check then ([CAction.delete obj.id], true) else ([], true)

end LMSdt

namespace LMCollector

/-- Collector mirrors logicmonitor_sdk.RestCollector as used by the module:
the fields get_obj can set, plus the server-side build (the installed
collector version). -/
structure Collector where
  id : Option Nat := none
  description : Option String := none
  backup_agent_id : Option Nat := none
  enable_fail_back : Option Bool := none
  resend_ival : Option Nat := none
  suppress_alert_clear : Option Bool := none
  escalating_chain_id : Option Nat := none
  collector_group_id : Option Nat := none
  need_auto_create_collector_device : Option Bool := none
  build : Option String := none
deriving DecidableEq, Repr

/-- to_dict flattens a RestCollector the way compare_objects sees it. -/
def Collector.to_dict (c : Collector) : PyDict :=
  [("id", c.id.map toString),
   ("description", c.description),
   ("backup_agent_id", c.backup_agent_id.map toString),
   ("enable_fail_back", c.enable_fail_back.map pyStrBool),
   ("resend_ival", c.resend_ival.map toString),
   ("suppress_alert_clear", c.suppress_alert_clear.map pyStrBool),
   ("escalating_chain_id", c.escalating_chain_id.map toString),
   ("collector_group_id", c.collector_group_id.map toString),
   ("need_auto_create_collector_device", c.need_auto_create_collector_device.map pyStrBool),
   ("build", c.build)]

/-- CollectorResp is a raw API response of the collector endpoints. -/
structure CollectorResp where
  status : Nat
  data : Collector
  errmsg : String
deriving DecidableEq, Repr

/-- CParams is the slice of the module options consulted by
find_obj, ensure_present and destructive_updates; collector_version holds
the version string after selector has stripped the dots. -/
structure CParams where
  id : Option Nat := none
  collector_size : Option String := some "small"
  collector_version : Option String := none
deriving DecidableEq, Repr

/-- NANO_HEAP is the wrapper heap value of a nano collector. -/
def NANO_HEAP : String := "1024"

/-- SMALL_HEAP is the wrapper heap value of a small collector. -/
def SMALL_HEAP : String := "1024"

/-- MEDIUM_HEAP is the wrapper heap value of a medium collector. -/
def MEDIUM_HEAP : String := "2048"

/-- LARGE_HEAP is the wrapper heap value of a large collector. -/
def LARGE_HEAP : String := "4096"

/-- NANO_SIZE names the nano collector size. -/
def NANO_SIZE : String := "nano"

/-- SMALL_SIZE names the small collector size. -/
def SMALL_SIZE : String := "small"

/-- MEDIUM_SIZE names the medium collector size. -/
def MEDIUM_SIZE : String := "medium"

/-- LARGE_SIZE names the large collector size. -/
def LARGE_SIZE : String := "large"

/-- compare_installed_collector_size decides whether the locally installed
collector, identified by the wrapper.java.maxmemory value read from
wrapper.conf (passed in as heap, None when unreadable), matches the
requested size; nano and small share one configuration. -/
def compare_installed_collector_size (heap : Option String) (size : String) : Bool :=
  if (heap == some NANO_HEAP || heap == some SMALL_HEAP) &&
      (size == NANO_SIZE || size == SMALL_SIZE) then true
  else if heap == some MEDIUM_HEAP && size == MEDIUM_SIZE then true
  else if heap == some LARGE_HEAP && size == LARGE_SIZE then true
  else false

/-- destructive_updates of the lm_sdk collector module: a requested
collector_size that does not match the installed heap configuration, or a
requested collector_version different from the build of the collector,
requires a reinstall (uninstall before install). -/
def destructive_updates (heap : Option String) (collector : Collector) (params : CParams) :
    Bool :=
  if pyTruthyStr params.collector_size &&
      !(compare_installed_collector_size heap (params.collector_size.getD "")) then true
  else if pyTruthyStr params.collector_version &&
      (collector.build != params.collector_version) then true
  else false

/-- compare_obj delegates to compare_objects; this module uses the empty
exclusion set. -/
def compare_obj (obj_1 obj_2 : Collector) : Bool :=
  compare_objects_ex obj_1.to_dict obj_2.to_dict []

/-- find_collector_by_id as a function of the response of
client.get_collector_by_id: status 1069 (no such agent) is benign not-found,
status 200 returns the fetched collector, anything else is fatal. -/
def find_collector_by_id (resp : CollectorResp) : Except String (Option Collector) :=
  if resp.status ≠ 200 then
    if resp.status = 1069 then Except.ok none
    else
      Except.error ("Status " ++ toString resp.status ++ " calling find_collector_by_id\n" ++
        resp.errmsg)
  else Except.ok (some resp.data)

/-- reinstall_steps is the tail of ensure_present: uninstall when an agent
is installed and a destructive diff is present (the call is suppressed in
check mode, changed is still set), then install when no agent is installed
(suppressed in check mode, changed still set). -/
def reinstall_steps (check : Bool) (params : CParams) (heap : Option String)
    (obj : Collector) (installed0 changed0 : Bool) (acts0 : List CAction) : CResult :=
  let destructive := installed0 && destructive_updates heap obj params
  let acts1 := if destructive && !check then acts0 ++ [CAction.uninstall] else acts0
  let inst1 := if destructive && !check then false else installed0
  let changed1 := if destructive then true else changed0
  let acts2 := if !inst1 && !check then acts1 ++ [CAction.install] else acts1
  let inst2 := if !inst1 && !check then true else inst1
  let changed2 := if !inst1 then true else changed1
  { actions := acts2, result := Except.ok changed2, installed := inst2 }

/-- ensure_present of the lm_sdk collector module against the deterministic
server.  obj0 is the desired collector built by get_obj; found the result
of find_obj; heap the wrapper.conf heap value; installed0 whether the local
agent binary exists; nextId the id the server assigns on create.  Every
add/update succeeds here, so the only fatal path is a given id with no
matching remote collector, which fails in and out of check mode. -/
def ensure_present (check : Bool) (params : CParams) (obj0 : Collector)
    (found : Option Collector) (heap : Option String) (installed0 : Bool)
    (nextId : Nat) : CResult :=
  match found with
  | none =>
    if pyTruthyNat params.id then
      { actions := []
        result := Except.error "The specified collector does not exist and collectors cannot be created with a specific id."
        installed := installed0 }
    else if !check then
      reinstall_steps check params heap { obj0 with id := some nextId } installed0 true
        [CAction.add]
    else
      reinstall_steps check params heap obj0 installed0 true []
  | some found_obj =>
    if !(compare_obj obj0 found_obj) then
      if !check then
        reinstall_steps check params heap { obj0 with id := found_obj.id } installed0 true
          [CAction.update found_obj.id]
      else
        reinstall_steps check params heap obj0 installed0 true []
    else
      reinstall_steps check params heap { obj0 with id := found_obj.id } installed0 false []

/-- ensure_absent of the lm_sdk collector module: when the collector is not
found the remote state is untouched; only when check mode is off and a
local agent is installed does the module rebuild obj via get_obj, uninstall
the agent and report changed false.  On every other not-found path obj is
still None when succeed(False, obj, module) runs, and succeed evaluates
obj.id, so the run crashes with AttributeError instead of reporting its
verdict.  When found, delete then uninstall any local agent, changed
true. -/
def ensure_absent (check : Bool) (installed0 : Bool) (found : Option Collector) : CResult :=
  match found with
  | none =>
    if !check && installed0 then
      { actions := [CAction.uninstall], result := Except.ok false, installed := false }
    else
      { actions := []
        result := Except.error "AttributeError: NoneType object has no attribute id"
        installed := installed0 }
  | some obj =>
    if !check then
      if installed0 then
        { actions := [CAction.delete obj.id, CAction.uninstall]
          result := Except.ok true
          installed := false }
      else
        { actions := [CAction.delete obj.id], result := Except.ok true, installed := installed0 }
    else
      { actions := [], result := Except.ok true, installed := installed0 }

end LMCollector

namespace LMCollectorOld

/-- OldCollector keeps the attributes read by the old collector module
(logicmonitor_collector.py, logicmonitor SDK flavour). -/
structure OldCollector where
  id : Option Nat := none
  collector_size : Option String := none
  use_ea : Option Bool := none
deriving DecidableEq, Repr

/-- OldCParams is the slice of the old module options read by
destructive_updates; a collector_version key does not exist in the argument
spec of that module, so its membership test in destructive_updates is
always false. -/
structure OldCParams where
  collector_size : String := "small"
  use_ea : Bool := false
deriving DecidableEq, Repr

/-- destructive_updates of the old collector module, verbatim: despite its
comment (any diff between the params listed will require a collector
reinstall) it returns False exactly when one of the listed params differs,
and True when none differs. -/
def destructive_updates (collector : OldCollector) (params : OldCParams) : Bool :=
  if collector.collector_size != some params.collector_size then false
  else if collector.use_ea != some params.use_ea then false
  else true

/-- ensure_absent of the old collector module.  In the branches that reach
the local uninstall step the source calls uninstall_collector(client, obj,
module), but uninstall_collector is defined with two parameters, so the
call raises TypeError and the run fails instead of reporting its verdict. -/
def ensure_absent (check : Bool) (installed0 : Bool) (found : Option OldCollector) :
    List CAction × Except String Bool :=
  match found with
  | none =>
    if !check && installed0 then
      ([], Except.error "TypeError: uninstall_collector() takes exactly 2 arguments (3 given)")
    else ([], Except.ok false)
  | some obj =>
    if !check then
      if installed0 then
        ([CAction.delete obj.id],
         Except.error "TypeError: uninstall_collector() takes exactly 2 arguments (3 given)")
      else ([CAction.delete obj.id], Except.ok true)
    else ([], Except.ok true)

end LMCollectorOld

/-- dgStEmpty is an empty remote collection whose server assigns ids from 10. -/
def dgStEmpty : LMDeviceGroupOld.DGState :=
  { remote := [], nextId := 10, calls := [] }

/-- dgParamsABC requests the device group /A/B/C. -/
def dgParamsABC : LMDeviceGroupOld.DGParams :=
  { full_path := "/A/B/C" }

/-- dgGroupA is a remote device group A with server id 5. -/
def dgGroupA : DeviceGroup :=
  { full_path := "A", id := some 5, name := some "A", parent_id := some 1 }

/-- dgStWithA is a remote collection already containing /A. -/
def dgStWithA : LMDeviceGroupOld.DGState :=
  { remote := [dgGroupA], nextId := 10, calls := [] }

/-- dgParamsAB requests the device group /A/B. -/
def dgParamsAB : LMDeviceGroupOld.DGParams :=
  { full_path := "/A/B" }

/-- dgGroupX is a single-segment desired device group. -/
def dgGroupX : DeviceGroup := { full_path := "X" }

/-- compare_objects_ex returns true iff no common non-null non-excluded key
differs; shared characterization used by several theorems below. -/
theorem compare_objects_ex_eq_true_iff (d1 d2 : PyDict) (ex : List String) :
    compare_objects_ex d1 d2 ex = true ↔
      ∀ k v1 v2, pyGet d1 k = some (some v1) → pyGet d2 k = some (some v2) →
        k ∉ ex → v1 = v2 := by
  constructor
  · intro hcmp k v1 v2 h1 h2 hex
    unfold compare_objects_ex at hcmp
    simp only [Bool.and_eq_true] at hcmp
    have hall := hcmp.1
    rw [List.all_eq_true] at hall
    obtain ⟨kv, hfind, hv⟩ := Option.map_eq_some'.mp h1
    have hmem : kv ∈ d1 := List.mem_of_find?_eq_some hfind
    have hkey : kv.1 = k := by
      have := List.find?_some hfind
      simpa using this
    have hpred := hall kv hmem
    rw [hkey] at hpred
    have hcont : ex.contains k = false := by
      rw [Bool.eq_false_iff]
      intro hc
      exact hex (List.elem_iff.mp hc)
    rw [if_neg (by rw [hcont]; simp)] at hpred
    rw [h1, h2] at hpred
    exact eq_of_beq hpred
  · intro hmatch
    unfold compare_objects_ex
    simp only [Bool.and_eq_true]
    constructor
    · rw [List.all_eq_true]
      intro kv _
      by_cases hm : kv.1 ∈ ex
      · have hc : ex.contains kv.1 = true := List.elem_iff.mpr hm
        rw [hc, if_pos rfl]
      · have hc : ex.contains kv.1 = false := by
          rw [Bool.eq_false_iff]
          intro hcc
          exact hm (List.elem_iff.mp hcc)
        rw [if_neg (by rw [hc]; simp)]
        cases hg1 : pyGet d1 kv.1 with
        | none => simp
        | some o1 =>
          cases o1 with
          | none => simp
          | some v1 =>
            cases hg2 : pyGet d2 kv.1 with
            | none => simp
            | some o2 =>
              cases o2 with
              | none => simp
              | some v2 =>
                have heq : v1 = v2 := hmatch kv.1 v1 v2 hg1 hg2 hm
                simp [heq]
    · rw [List.all_eq_true]
      intro kv _
      by_cases hm : kv.1 ∈ ex
      · have hc : ex.contains kv.1 = true := List.elem_iff.mpr hm
        rw [hc, if_pos rfl]
      · have hc : ex.contains kv.1 = false := by
          rw [Bool.eq_false_iff]
          intro hcc
          exact hm (List.elem_iff.mp hcc)
        rw [if_neg (by rw [hc]; simp)]
        cases hg2 : pyGet d2 kv.1 with
        | none => simp
        | some o2 =>
          cases o2 with
          | none => simp
          | some v2 =>
            cases hg1 : pyGet d1 kv.1 with
            | none => simp
            | some o1 =>
              cases o1 with
              | none => simp
              | some v1 =>
                have heq : v1 = v2 := hmatch kv.1 v1 v2 hg1 hg2 hm
                simp [heq]

/-- C2: with none of A, B, C existing remotely, reconciling /A/B/C issues
exactly three create calls, in order A (under the root id 1), then B with
parent_id equal to the id the server assigned to A, then C with parent_id
equal to the id assigned to B; with /A already existing (id 5) and /A/B
requested, exactly one create call is issued, for B with parent_id 5. -/
theorem c2_path_materializer_calls :
    (LMDeviceGroupOld.ensure_present false dgParamsABC dgStEmpty).map
        (fun r => r.1.calls) =
      some [LMDeviceGroupOld.DGAction.create (some "A") "A" (some 1),
            LMDeviceGroupOld.DGAction.create (some "B") "A/B" (some 10),
            LMDeviceGroupOld.DGAction.create (some "C") "A/B/C" (some 11)] ∧
    (LMDeviceGroupOld.ensure_present false dgParamsAB dgStWithA).map
        (fun r => r.1.calls) =
      some [LMDeviceGroupOld.DGAction.create (some "B") "A/B" (some 5)] := by
  exact ⟨rfl, rfl⟩

/-- splitChar never returns the empty list (Python split always yields at
least one piece). -/
theorem splitChar_ne_nil (l : List Char) : splitChar l ≠ [] := by
  cases l with
  | nil => simp [splitChar]
  | cons c rest =>
    simp only [splitChar]
    by_cases hc : c = '/'
    · simp [hc]
    · rw [if_neg hc]
      cases h : splitChar rest <;> simp

/-- segments produced by splitChar contain no slash. -/
theorem mem_splitChar_no_slash (l : List Char) (seg : List Char)
    (h : seg ∈ splitChar l) : '/' ∉ seg := by
  induction l generalizing seg with
  | nil =>
    simp [splitChar] at h
    subst h; simp
  | cons c rest ih =>
    simp only [splitChar] at h
    by_cases hc : c = '/'
    · rw [if_pos hc] at h
      rcases List.mem_cons.mp h with h1 | h2
      · subst h1; simp
      · exact ih seg h2
    · rw [if_neg hc] at h
      cases hs : splitChar rest with
      | nil => exact absurd hs (splitChar_ne_nil rest)
      | cons hd tl =>
        rw [hs] at h
        rcases List.mem_cons.mp h with h1 | h2
        · subst h1
          intro hmem
          rcases List.mem_cons.mp hmem with h3 | h4
          · exact hc h3.symm
          · have hhd : hd ∈ splitChar rest := by rw [hs]; exact List.mem_cons_self _ _
            exact ih hd hhd h4
        · have hseg : seg ∈ splitChar rest := by rw [hs]; exact List.mem_cons_of_mem _ h2
          exact ih seg hseg

/-- joining the split of a list of characters gives it back. -/
theorem joinChar_splitChar (l : List Char) : joinChar (splitChar l) = l := by
  induction l with
  | nil => rfl
  | cons c rest ih =>
    simp only [splitChar]
    by_cases hc : c = '/'
    · rw [if_pos hc]
      cases hs : splitChar rest with
      | nil => exact absurd hs (splitChar_ne_nil rest)
      | cons hd tl =>
        rw [hs] at ih
        subst hc
        simp only [joinChar]
        cases tl with
        | nil => simpa [joinChar] using ih
        | cons y t => simpa [joinChar] using ih
    · rw [if_neg hc]
      cases hs : splitChar rest with
      | nil => exact absurd hs (splitChar_ne_nil rest)
      | cons hd tl =>
        rw [hs] at ih
        cases tl with
        | nil =>
          simp only [joinChar] at ih ⊢
          rw [ih]
        | cons y t =>
          simp only [joinChar] at ih ⊢
          rw [List.cons_append, ih]

/-- a slash-free character list splits into a single segment. -/
theorem splitChar_no_slash (x : List Char) (hx : '/' ∉ x) : splitChar x = [x] := by
  induction x with
  | nil => rfl
  | cons c rest ih =>
    have hc : c ≠ '/' := fun h => hx (List.mem_cons.mpr (Or.inl h.symm))
    simp only [splitChar]
    rw [if_neg hc, ih (fun hm => hx (List.mem_cons_of_mem _ hm))]

/-- splitting a slash-free piece followed by a slash peels off the piece. -/
theorem splitChar_append_slash (x r : List Char) (hx : '/' ∉ x) :
    splitChar (x ++ '/' :: r) = x :: splitChar r := by
  induction x with
  | nil => simp [splitChar]
  | cons c rest ih =>
    have hc : c ≠ '/' := fun h => hx (List.mem_cons.mpr (Or.inl h.symm))
    have hrest : '/' ∉ rest := fun hm => hx (List.mem_cons_of_mem _ hm)
    simp only [List.cons_append, splitChar, List.append_eq]
    rw [if_neg hc, ih hrest]

/-- splitting the join of nonempty slash-free segments gives them back. -/
theorem splitChar_joinChar (l : List (List Char)) (hne : l ≠ [])
    (hns : ∀ x ∈ l, '/' ∉ x) : splitChar (joinChar l) = l := by
  induction l with
  | nil => exact absurd rfl hne
  | cons x t ih =>
    cases t with
    | nil => simpa [joinChar] using splitChar_no_slash x (hns x (List.mem_cons_self _ _))
    | cons y tt =>
      have hx : '/' ∉ x := hns x (List.mem_cons_self _ _)
      simp only [joinChar]
      rw [splitChar_append_slash x _ hx]
      congr 1
      exact ih (by simp) (fun z hz => hns z (List.mem_cons_of_mem _ hz))

/-- appending one more segment appends a slash and the segment. -/
theorem joinChar_concat (l : List (List Char)) (x : List Char) (h : l ≠ []) :
    joinChar (l ++ [x]) = joinChar l ++ '/' :: x := by
  induction l with
  | nil => exact absurd rfl h
  | cons a t ih =>
    cases t with
    | nil => simp [joinChar]
    | cons b tt =>
      have hih := ih (by simp)
      simp only [List.cons_append, joinChar, List.append_eq] at hih ⊢
      rw [hih]
      simp [List.cons_append]

/-- dropWhile is idempotent. -/
theorem dropWhile_idem (p : Char → Bool) (l : List Char) :
    (l.dropWhile p).dropWhile p = l.dropWhile p := by
  induction l with
  | nil => rfl
  | cons c rest ih =>
    by_cases hc : p c
    · simp [List.dropWhile_cons, hc, ih]
    · simp [List.dropWhile_cons, hc]

/-- lstripSlash is idempotent. -/
theorem lstripSlash_idem (s : String) : lstripSlash (lstripSlash s) = lstripSlash s :=
  congrArg String.mk (dropWhile_idem _ s.data)

/-- numSegs is at least one. -/
theorem numSegs_pos (s : String) : 1 ≤ numSegs s := by
  unfold numSegs
  cases h : splitChar s.data with
  | nil => exact absurd h (splitChar_ne_nil _)
  | cons a t => simp

/-- the parent path, when nonempty, is strictly shorter than the path: the
removed last segment and its separator are gone. -/
theorem parentPath_length_lt (s : String) (h : parentPath s ≠ "") :
    (parentPath s).length < s.length := by
  rcases List.eq_nil_or_concat (splitChar s.data) with hnil | ⟨l, x, hlx⟩
  · exact absurd hnil (splitChar_ne_nil _)
  · rw [List.concat_eq_append] at hlx
    have hdrop : (splitChar s.data).dropLast = l := by rw [hlx]; simp
    cases l with
    | nil =>
      exfalso
      apply h
      unfold parentPath
      rw [hdrop]
      rfl
    | cons a t =>
      have hlen : s.data.length = (joinChar (a :: t)).length + 1 + x.length := by
        conv_lhs => rw [← joinChar_splitChar s.data, hlx]
        rw [joinChar_concat _ _ (by simp)]
        simp [List.length_append]
        omega
      unfold parentPath
      rw [hdrop]
      show (joinChar (a :: t)).length < s.data.length
      omega

/-- the parent path, when nonempty, has strictly fewer segments. -/
theorem numSegs_parentPath_lt (s : String) (h : parentPath s ≠ "") :
    numSegs (parentPath s) < numSegs s := by
  rcases List.eq_nil_or_concat (splitChar s.data) with hnil | ⟨l, x, hlx⟩
  · exact absurd hnil (splitChar_ne_nil _)
  · rw [List.concat_eq_append] at hlx
    have hdrop : (splitChar s.data).dropLast = l := by rw [hlx]; simp
    cases l with
    | nil =>
      exfalso
      apply h
      unfold parentPath
      rw [hdrop]
      rfl
    | cons a t =>
      have hsub : ∀ z ∈ a :: t, '/' ∉ z := by
        intro z hz
        apply mem_splitChar_no_slash s.data
        rw [hlx]
        exact List.mem_append_left _ hz
      unfold numSegs parentPath
      rw [hdrop]
      show (splitChar (joinChar (a :: t))).length < (splitChar s.data).length
      rw [splitChar_joinChar _ (by simp) hsub, hlx]
      simp [List.length_append]

/-- fuel equal to the segment count always suffices: the embedded recursion
of create_device_group never exhausts its fuel. -/
theorem create_device_group_total (fuel : Nat) :
    ∀ (st : LMDeviceGroupOld.DGState) (g : DeviceGroup),
      numSegs g.full_path ≤ fuel →
      (LMDeviceGroupOld.create_device_group fuel st g).isSome = true := by
  induction fuel with
  | zero =>
    intro st g hle
    have := numSegs_pos g.full_path
    omega
  | succ n ih =>
    intro st g hle
    simp only [LMDeviceGroupOld.create_device_group]
    by_cases hpp : parentPath g.full_path = ""
    · rw [if_pos hpp]
      simp
    · rw [if_neg hpp]
      cases hf : LMDeviceGroupOld.find_obj st (parentPath g.full_path) with
      | some pg => simp
      | none =>
        have hlt := numSegs_parentPath_lt g.full_path hpp
        have hrec := ih st
          { g with name := some (lastSegStr g.full_path), full_path := parentPath g.full_path }
          (by show numSegs (parentPath g.full_path) ≤ n; omega)
        obtain ⟨p, hp⟩ := Option.isSome_iff_exists.mp hrec
        rw [hp]
        cases p
        simp

/-- C3: the recursive parent-group materialization terminates on every
desired path.  Each recursive call is on the parent path, the input with
its last '/'-separated segment removed, which is strictly shorter; fuel
equal to the number of path segments always suffices; and when the parent
path is the empty string the result is a single add with parent id set to
the well-known root id 1, with fuel 1 (so no recursive call occurs). -/
theorem c3_create_device_group_terminates :
    (∀ s : String, parentPath s ≠ "" → (parentPath s).length < s.length) ∧
    (∀ (fuel : Nat) (st : LMDeviceGroupOld.DGState) (g : DeviceGroup),
      numSegs g.full_path ≤ fuel →
      (LMDeviceGroupOld.create_device_group fuel st g).isSome = true) ∧
    (∀ (st : LMDeviceGroupOld.DGState) (g : DeviceGroup),
      parentPath g.full_path = "" →
      LMDeviceGroupOld.create_device_group 1 st g =
        some (LMDeviceGroupOld.add_obj st
          { g with name := some (lastSegStr g.full_path), parent_id := some 1 })) := by
  refine ⟨parentPath_length_lt, create_device_group_total, ?_⟩
  intro st g hpp
  simp only [LMDeviceGroupOld.create_device_group]
  rw [if_pos hpp]

/-- c3 witness: the theorem applied at concrete inputs, discharging each
hypothesis there. -/
theorem c3_witness :
    (parentPath "A/B").length < ("A/B" : String).length ∧
    (LMDeviceGroupOld.create_device_group 1 dgStEmpty dgGroupX).isSome = true ∧
    LMDeviceGroupOld.create_device_group 1 dgStEmpty dgGroupX =
      some (LMDeviceGroupOld.add_obj dgStEmpty
        { dgGroupX with name := some (lastSegStr dgGroupX.full_path), parent_id := some 1 }) :=
  ⟨c3_create_device_group_terminates.1 "A/B" (by decide),
   c3_create_device_group_terminates.2.1 1 dgStEmpty dgGroupX (by decide),
   c3_create_device_group_terminates.2.2 dgStEmpty dgGroupX (by decide)⟩

/-- C6 counterexample: the claim quantifies over every create operation, but
the create of the collector-SDT module treats status 600 (already exists)
as fatal: at this concrete input the run fails instead of returning the
original desired object. -/
theorem c6_counterexample_sdt_600 :
    LMSdt.add_obj_resp
        { status := 600, data := { id := some 3 }, errmsg := "The record already exists" }
        { id := none, comment := "window" } =
      Except.error "Status 600 calling add_sdt\nThe record already exists" := rfl

/-- C6 amended: for the device-group create (and the collector, collector
group and device-SDT creates, which share this handler verbatim) status 600
is treated as success returning the original desired object and every other
non-200 status is fatal; the collector-SDT create instead treats every
non-200 status, 600 included, as fatal, while 200 returns the created
object. -/
theorem c6_add_obj_status_amended (respg : DGResp) (g : DeviceGroup)
    (resps : LMSdt.SdtResp) (sdt : LMSdt.Sdt) :
    (respg.status = 600 → LMDeviceGroupOld.add_obj_resp respg g = Except.ok g) ∧
    (respg.status = 200 → LMDeviceGroupOld.add_obj_resp respg g = Except.ok respg.data) ∧
    (respg.status ≠ 200 → respg.status ≠ 600 →
      ∃ e, LMDeviceGroupOld.add_obj_resp respg g = Except.error e) ∧
    (resps.status = 200 → LMSdt.add_obj_resp resps sdt = Except.ok resps.data) ∧
    (resps.status ≠ 200 → ∃ e, LMSdt.add_obj_resp resps sdt = Except.error e) := by
  refine ⟨?_, ?_, ?_, ?_, ?_⟩
  · intro h600
    simp [LMDeviceGroupOld.add_obj_resp, h600]
  · intro h200
    simp [LMDeviceGroupOld.add_obj_resp, h200]
  · intro hne hne600
    refine ⟨"Status " ++ toString respg.status ++ " calling add_device_group\n" ++
      respg.errmsg, ?_⟩
    simp [LMDeviceGroupOld.add_obj_resp, hne, hne600]
  · intro h200
    simp [LMSdt.add_obj_resp, h200]
  · intro hne
    refine ⟨"Status " ++ toString resps.status ++ " calling add_sdt\n" ++ resps.errmsg, ?_⟩
    simp [LMSdt.add_obj_resp, hne]

/-- c6 witness: the amended theorem applied at concrete responses. -/
theorem c6_amended_witness :
    LMDeviceGroupOld.add_obj_resp
        { status := 600, data := dgGroupA, errmsg := "The record already exists" } dgGroupX =
      Except.ok dgGroupX ∧
    LMSdt.add_obj_resp { status := 200, data := { id := some 3 }, errmsg := "" }
        { id := none, comment := "window" } =
      Except.ok { id := some 3 } :=
  ⟨(c6_add_obj_status_amended
      { status := 600, data := dgGroupA, errmsg := "The record already exists" } dgGroupX
      { status := 200, data := { id := some 3 }, errmsg := "" }
      { id := none, comment := "window" }).1 rfl,
   (c6_add_obj_status_amended
      { status := 600, data := dgGroupA, errmsg := "The record already exists" } dgGroupX
      { status := 200, data := { id := some 3 }, errmsg := "" }
      { id := none, comment := "window" }).2.2.2.1 rfl⟩

/-- C8: find-by-id treats status 1069 (no such agent) as benign not-found,
status 200 returns the fetched collector, and every other status aborts
with a fatal error. -/
theorem c8_find_collector_by_id_cases (resp : LMCollector.CollectorResp) :
    (resp.status = 1069 → LMCollector.find_collector_by_id resp = Except.ok none) ∧
    (resp.status = 200 →
      LMCollector.find_collector_by_id resp = Except.ok (some resp.data)) ∧
    (resp.status ≠ 200 → resp.status ≠ 1069 →
      ∃ e, LMCollector.find_collector_by_id resp = Except.error e) := by
  refine ⟨?_, ?_, ?_⟩
  · intro h1069
    simp [LMCollector.find_collector_by_id, h1069]
  · intro h200
    simp [LMCollector.find_collector_by_id, h200]
  · intro hne hne1069
    refine ⟨"Status " ++ toString resp.status ++ " calling find_collector_by_id\n" ++
      resp.errmsg, ?_⟩
    simp [LMCollector.find_collector_by_id, hne, hne1069]

/-- c8 witness: the theorem applied at concrete responses. -/
theorem c8_witness :
    LMCollector.find_collector_by_id { status := 1069, data := {}, errmsg := "No such agent" } =
      Except.ok none ∧
    LMCollector.find_collector_by_id { status := 200, data := { id := some 7 }, errmsg := "" } =
      Except.ok (some { id := some 7 }) :=
  ⟨(c8_find_collector_by_id_cases { status := 1069, data := {}, errmsg := "No such agent" }).1 rfl,
   (c8_find_collector_by_id_cases { status := 200, data := { id := some 7 }, errmsg := "" }).2.1 rfl⟩

/-- C7: absent-on-absent.  The device-group and collector-SDT modules
report changed false and issue no delete call when the resource is not
found.  No collector module, however, does so on every not-found path.
The lm_sdk collector reports changed false only when check mode is off and
a local agent is installed (it then also uninstalls the agent, which is
not an API delete); on the other not-found paths obj is still None when
succeed(False, obj, module) runs, and succeed evaluates obj.id, so the run
crashes with AttributeError.  The old collector module crashes whenever a
local agent is installed outside check mode, because it calls
uninstall_collector with three arguments though it is defined with two.
Neither module issues a delete call on any of these paths. -/
theorem c7_absent_on_absent :
    (LMDeviceGroupOld.ensure_absent false dgParamsAB dgStEmpty = (dgStEmpty, false)) ∧
    (LMDeviceGroupOld.ensure_absent true dgParamsAB dgStEmpty = (dgStEmpty, false)) ∧
    (LMSdt.ensure_absent false none = ([], false)) ∧
    (LMSdt.ensure_absent true none = ([], false)) ∧
    (LMCollector.ensure_absent false false none =
      { actions := []
        result := Except.error "AttributeError: NoneType object has no attribute id"
        installed := false }) ∧
    (LMCollector.ensure_absent true true none =
      { actions := []
        result := Except.error "AttributeError: NoneType object has no attribute id"
        installed := true }) ∧
    (LMCollector.ensure_absent false true none =
      { actions := [CAction.uninstall], result := Except.ok false, installed := false }) ∧
    (LMCollectorOld.ensure_absent false false none = ([], Except.ok false)) ∧
    (LMCollectorOld.ensure_absent true true none = ([], Except.ok false)) ∧
    (LMCollectorOld.ensure_absent false true none =
      ([], Except.error "TypeError: uninstall_collector() takes exactly 2 arguments (3 given)")) := by
  refine ⟨rfl, rfl, rfl, rfl, rfl, rfl, rfl, rfl, rfl, rfl⟩

/-- C9: the destructive-updates classifier.  In the lm_sdk collector module
a requested size that does not match the installed heap, or a requested
version different from the build, is destructive, and on such an update the
agent is uninstalled before being reinstalled (update, then uninstall, then
install).  In the old collector module the verbatim code returns False
exactly when one of the listed params differs, contradicting its own
comment that any such diff requires a reinstall. -/
theorem c9_destructive_updates_eval :
    (LMCollectorOld.destructive_updates
        { collector_size := some "small", use_ea := some false }
        { collector_size := "large", use_ea := false } = false) ∧
    (LMCollector.destructive_updates (some "1024") { build := some "28500" }
        { collector_size := some "large", collector_version := none } = true) ∧
    (LMCollector.destructive_updates (some "1024") { build := some "28000" }
        { collector_size := some "small", collector_version := some "28500" } = true) ∧
    (LMCollector.destructive_updates (some "1024") { build := some "28500" }
        { collector_size := some "small", collector_version := some "28500" } = false) ∧
    (LMCollector.ensure_present false { collector_size := some "large" }
        { description := some "desired" } (some { id := some 7, description := some "remote" })
        (some "1024") true 50 =
      { actions := [CAction.update (some 7), CAction.uninstall, CAction.install],
        result := Except.ok true, installed := true }) := by
  refine ⟨rfl, rfl, rfl, rfl, rfl⟩

/-- C10: in the lm_sdk collector module, state absent with the collector not
found but a local agent installed (check mode off) still runs the local
uninstaller, yet reports changed false: the changed flag reflects only the
remote delete decision.  The old collector module instead crashes on this
exact path with a TypeError (uninstall_collector called with three
arguments but defined with two). -/
theorem c10_absent_uninstall_changed_false :
    (LMCollector.ensure_absent false true none =
      { actions := [CAction.uninstall], result := Except.ok false, installed := false }) ∧
    (LMCollectorOld.ensure_absent false true none =
      ([], Except.error "TypeError: uninstall_collector() takes exactly 2 arguments (3 given)")) := by
  refine ⟨rfl, rfl⟩

/-- destructive_updates only reads the build of the collector, so the id the
server assigned is irrelevant. -/
theorem destructive_updates_id_irrel (heap : Option String) (c : LMCollector.Collector)
    (params : LMCollector.CParams) (x : Option Nat) :
    LMCollector.destructive_updates heap { c with id := x } params =
      LMCollector.destructive_updates heap c params := by
  cases c
  rfl

/-- in check mode reinstall_steps issues no call. -/
theorem reinstall_steps_actions_check (params : LMCollector.CParams) (heap : Option String)
    (obj : LMCollector.Collector) (i c : Bool) (a : List CAction) :
    (LMCollector.reinstall_steps true params heap obj i c a).actions = a := by
  unfold LMCollector.reinstall_steps
  cases i <;>
    by_cases hd : LMCollector.destructive_updates heap obj params <;> simp [hd]

/-- in check mode reinstall_steps leaves the local install state untouched. -/
theorem reinstall_steps_installed_check (params : LMCollector.CParams) (heap : Option String)
    (obj : LMCollector.Collector) (i c : Bool) (a : List CAction) :
    (LMCollector.reinstall_steps true params heap obj i c a).installed = i := by
  unfold LMCollector.reinstall_steps
  cases i <;>
    by_cases hd : LMCollector.destructive_updates heap obj params <;> simp [hd]

/-- the changed flag reinstall_steps reports does not depend on check mode. -/
theorem reinstall_steps_result (chk : Bool) (params : LMCollector.CParams)
    (heap : Option String) (obj : LMCollector.Collector) (i c : Bool) (a : List CAction) :
    (LMCollector.reinstall_steps chk params heap obj i c a).result =
      Except.ok (if i then
        (if LMCollector.destructive_updates heap obj params then true else c)
      else true) := by
  unfold LMCollector.reinstall_steps
  cases chk <;> cases i <;>
    by_cases hd : LMCollector.destructive_updates heap obj params <;> simp [hd]

/-- C4: with check mode (dry-run) enabled no create, update, delete,
install or uninstall call is issued, whatever the computed verdict.  The
reported changed value equals the one of the same run without check mode
for the device-group ensure_present and ensure_absent (the whole server
state, call trace included, is returned untouched), for the lm_sdk
collector ensure_present, and for the lm_sdk collector ensure_absent on a
found collector.  The last two conjuncts expose the path where the parity
fails: with the collector not found and a local agent installed, the
check-mode run reaches succeed(False, obj, module) with obj still None and
crashes on obj.id with AttributeError, while the same run without check
mode rebuilds obj via get_obj and reports changed false. -/
theorem c4_dry_run_no_calls_same_changed :
    (∀ (p : LMDeviceGroupOld.DGParams) (st : LMDeviceGroupOld.DGState),
      ∃ b, LMDeviceGroupOld.ensure_present true p st = some (st, b) ∧
        (LMDeviceGroupOld.ensure_present false p st).map (fun r => r.2) = some b) ∧
    (∀ (params : LMCollector.CParams) (obj0 : LMCollector.Collector)
        (found : Option LMCollector.Collector) (heap : Option String)
        (installed0 : Bool) (nextId : Nat),
      (LMCollector.ensure_present true params obj0 found heap installed0 nextId).actions =
        [] ∧
      (LMCollector.ensure_present true params obj0 found heap installed0 nextId).installed =
        installed0 ∧
      (LMCollector.ensure_present true params obj0 found heap installed0 nextId).result =
        (LMCollector.ensure_present false params obj0 found heap installed0 nextId).result) ∧
    (∀ (p : LMDeviceGroupOld.DGParams) (st : LMDeviceGroupOld.DGState),
      (LMDeviceGroupOld.ensure_absent true p st).1 = st ∧
      (LMDeviceGroupOld.ensure_absent true p st).2 =
        (LMDeviceGroupOld.ensure_absent false p st).2) ∧
    (∀ (installed0 : Bool) (f : LMCollector.Collector),
      (LMCollector.ensure_absent true installed0 (some f)).actions = [] ∧
      (LMCollector.ensure_absent true installed0 (some f)).installed = installed0 ∧
      (LMCollector.ensure_absent true installed0 (some f)).result =
        (LMCollector.ensure_absent false installed0 (some f)).result) ∧
    (LMCollector.ensure_absent true true none =
      { actions := []
        result := Except.error "AttributeError: NoneType object has no attribute id"
        installed := true }) ∧
    (LMCollector.ensure_absent false true none =
      { actions := [CAction.uninstall], result := Except.ok false, installed := false }) := by
  refine ⟨?_, ?_, ?_, ?_, rfl, rfl⟩
  · intro p st
    cases hf : LMDeviceGroupOld.find_obj st (LMDeviceGroupOld.get_object p).full_path with
    | none =>
      refine ⟨true, ?_, ?_⟩
      · simp [LMDeviceGroupOld.ensure_present, hf]
      · have htot := create_device_group_total
          (numSegs (LMDeviceGroupOld.get_object p).full_path) st
          (LMDeviceGroupOld.get_object p) (le_refl _)
        obtain ⟨pr, hpr⟩ := Option.isSome_iff_exists.mp htot
        cases pr
        simp [LMDeviceGroupOld.ensure_present, hf, hpr]
    | some found =>
      by_cases hcmp : LMDeviceGroupOld.compare_obj (LMDeviceGroupOld.get_object p) found = true
      · refine ⟨false, ?_, ?_⟩ <;> simp [LMDeviceGroupOld.ensure_present, hf, hcmp]
      · have hcmp2 : LMDeviceGroupOld.compare_obj (LMDeviceGroupOld.get_object p) found =
            false := by
          simpa using hcmp
        refine ⟨true, ?_, ?_⟩ <;> simp [LMDeviceGroupOld.ensure_present, hf, hcmp2]
  · intro params obj0 found heap installed0 nextId
    cases found with
    | none =>
      by_cases hid : pyTruthyNat params.id = true
      · simp [LMCollector.ensure_present, hid]
      · have hid2 : pyTruthyNat params.id = false := by simpa using hid
        simp only [LMCollector.ensure_present, hid2, Bool.false_eq_true, if_false,
          Bool.not_true, Bool.not_false, if_true]
        refine ⟨reinstall_steps_actions_check _ _ _ _ _ _,
          reinstall_steps_installed_check _ _ _ _ _ _, ?_⟩
        rw [reinstall_steps_result, reinstall_steps_result]
        simp
    | some f =>
      by_cases hcmp : LMCollector.compare_obj obj0 f = true
      · simp only [LMCollector.ensure_present, hcmp, Bool.not_true, Bool.false_eq_true,
          if_false, Bool.not_false, if_true]
        refine ⟨reinstall_steps_actions_check _ _ _ _ _ _,
          reinstall_steps_installed_check _ _ _ _ _ _, ?_⟩
        rw [reinstall_steps_result, reinstall_steps_result]
      · have hcmp2 : LMCollector.compare_obj obj0 f = false := by simpa using hcmp
        simp only [LMCollector.ensure_present, hcmp2, Bool.not_false, if_true,
          Bool.not_true, Bool.false_eq_true, if_false]
        refine ⟨reinstall_steps_actions_check _ _ _ _ _ _,
          reinstall_steps_installed_check _ _ _ _ _ _, ?_⟩
        rw [reinstall_steps_result, reinstall_steps_result]
        simp
  · intro p st
    cases hf : LMDeviceGroupOld.find_obj st p.full_path with
    | none => simp [LMDeviceGroupOld.ensure_absent, hf]
    | some obj => simp [LMDeviceGroupOld.ensure_absent, hf]
  · intro installed0 f
    cases installed0 <;> simp [LMCollector.ensure_absent]

/-- get_object always carries the lstripped full path. -/
theorem get_object_full_path (p : LMDeviceGroupOld.DGParams) :
    (LMDeviceGroupOld.get_object p).full_path = lstripSlash p.full_path := by
  unfold LMDeviceGroupOld.get_object
  cases p.applies_to with
  | none => rfl
  | some a =>
    by_cases ha : a ≠ "" <;> simp [ha]

/-- get_object never sets the server-assigned fields. -/
theorem get_object_server_fields (p : LMDeviceGroupOld.DGParams) :
    (LMDeviceGroupOld.get_object p).id = none ∧
    (LMDeviceGroupOld.get_object p).name = none ∧
    (LMDeviceGroupOld.get_object p).parent_id = none := by
  unfold LMDeviceGroupOld.get_object
  cases p.applies_to with
  | none => exact ⟨rfl, rfl, rfl⟩
  | some a =>
    by_cases ha : a ≠ "" <;> simp [ha]

/-- pyGet on a cons cell: test the head key, else look in the tail. -/
theorem pyGet_cons (a : String) (b : Option String) (t : PyDict) (k : String) :
    pyGet ((a, b) :: t) k = if a == k then some b else pyGet t k := by
  by_cases h : (a == k) = true
  · simp [pyGet, List.find?_cons_of_pos, h]
  · simp [pyGet, List.find?_cons_of_neg, h]

/-- a desired object with no server-assigned fields compares equal to
itself with any id, name and parent id stored on the remote side: those
keys are null on the desired side and hence skipped. -/
theorem compare_obj_immutable (g : DeviceGroup) (i : Option Nat) (nm : Option String)
    (pid : Option Nat) (hid : g.id = none) (hnm : g.name = none)
    (hpid : g.parent_id = none) :
    LMDeviceGroupOld.compare_obj g { g with id := i, name := nm, parent_id := pid } = true := by
  obtain ⟨cp, d, da, fp, gt, ao, idf, nmf, pidf⟩ := g
  simp only at hid hnm hpid
  subst hid hnm hpid
  unfold LMDeviceGroupOld.compare_obj
  apply (compare_objects_ex_eq_true_iff _ _ _).mpr
  intro k v1 v2 h1 h2 _
  simp only [DeviceGroup.to_dict, pyGet_cons] at h1 h2
  by_cases k1 : ("applies_to" == k) = true
  · rw [if_pos k1] at h1 h2
    exact Option.some.inj ((Option.some.inj h1).symm.trans (Option.some.inj h2))
  · rw [if_neg k1] at h1 h2
    by_cases k2 : ("custom_properties" == k) = true
    · rw [if_pos k2] at h1 h2
      exact (Option.some.inj (Option.some.inj h1)).symm.trans
        (Option.some.inj (Option.some.inj h2))
    · rw [if_neg k2] at h1 h2
      by_cases k3 : ("description" == k) = true
      · rw [if_pos k3] at h1 h2
        exact (Option.some.inj (Option.some.inj h1)).symm.trans
          (Option.some.inj (Option.some.inj h2))
      · rw [if_neg k3] at h1 h2
        by_cases k4 : ("disable_alerting" == k) = true
        · rw [if_pos k4] at h1 h2
          exact (Option.some.inj (Option.some.inj h1)).symm.trans
            (Option.some.inj (Option.some.inj h2))
        · rw [if_neg k4] at h1 h2
          by_cases k5 : ("full_path" == k) = true
          · rw [if_pos k5] at h1 h2
            exact (Option.some.inj (Option.some.inj h1)).symm.trans
              (Option.some.inj (Option.some.inj h2))
          · rw [if_neg k5] at h1 h2
            by_cases k6 : ("group_type" == k) = true
            · rw [if_pos k6] at h1 h2
              exact (Option.some.inj (Option.some.inj h1)).symm.trans
                (Option.some.inj (Option.some.inj h2))
            · rw [if_neg k6] at h1 h2
              by_cases k7 : ("id" == k) = true
              · rw [if_pos k7] at h1
                exact Option.noConfusion (Option.some.inj h1)
              · rw [if_neg k7] at h1 h2
                by_cases k8 : ("name" == k) = true
                · rw [if_pos k8] at h1
                  exact Option.noConfusion (Option.some.inj h1)
                · rw [if_neg k8] at h1 h2
                  by_cases k9 : ("parent_id" == k) = true
                  · rw [if_pos k9] at h1
                    exact Option.noConfusion (Option.some.inj h1)
                  · rw [if_neg k9] at h1 h2
                    simp [pyGet] at h1

/-- C1: the object comparator returns true iff no field key is present with a
non-null value in both flattened mappings, outside the exclusion set, with
differing string representations.  In particular all-common-fields-match
implies true and any common non-null non-excluded difference implies false. -/
theorem c1_compare_objects_iff (d1 d2 : PyDict) (ex : List String) :
    compare_objects_ex d1 d2 ex = true ↔
      ∀ k v1 v2, pyGet d1 k = some (some v1) → pyGet d2 k = some (some v2) →
        k ∉ ex → v1 = v2 :=
  compare_objects_ex_eq_true_iff d1 d2 ex

/-- after update_obj replaces every remote object carrying the updated id,
a scan that used to find the replaced object now finds the update. -/
theorem find?_map_update (p : DeviceGroup → Bool) (l : List DeviceGroup)
    (f newObj : DeviceGroup) (hfind : l.find? p = some f)
    (hid : newObj.id = f.id) (hp : p newObj = true) :
    (l.map (fun it => if it.id == newObj.id then newObj else it)).find? p = some newObj := by
  induction l with
  | nil => exact absurd hfind (by simp)
  | cons x xs ih =>
    by_cases hx : (x.id == newObj.id) = true
    · simp only [List.map_cons, hx, if_true]
      exact List.find?_cons_of_pos _ hp
    · simp only [List.map_cons, hx, if_false]
      cases hpx : p x with
      | true =>
        rw [List.find?_cons_of_pos _ hpx] at hfind
        have hxf : x = f := Option.some.inj hfind
        exfalso
        apply hx
        rw [hxf, hid]
        exact beq_self_eq_true f.id
      | false =>
        rw [List.find?_cons_of_neg _ (by simp [hpx])] at hfind
        rw [List.find?_cons_of_neg _ (by simp [hpx])]
        exact ih hfind

/-- create_device_group only appends to the remote collection: the appended
groups end with the requested leaf (returned with name set from the last
segment, a resolved parent id and a fresh server id), and every other
appended group is a strictly shorter ancestor path. -/
theorem create_device_group_spec (fuel : Nat) :
    ∀ (st st2 : LMDeviceGroupOld.DGState) (g res : DeviceGroup),
      LMDeviceGroupOld.create_device_group fuel st g = some (st2, res) →
      ∃ (L : List DeviceGroup) (pid : Option Nat) (nid : Nat),
        st2.remote = st.remote ++ L ∧ L ≠ [] ∧ L.getLast? = some res ∧
        res = { g with
                name := some (lastSegStr g.full_path)
                parent_id := pid
                id := some nid } ∧
        ∀ x ∈ L.dropLast, x.full_path.length < g.full_path.length := by
  induction fuel with
  | zero =>
    intro st st2 g res h
    exact absurd h (by simp [LMDeviceGroupOld.create_device_group])
  | succ n ih =>
    intro st st2 g res h
    simp only [LMDeviceGroupOld.create_device_group] at h
    split at h
    · -- parent path empty: a single add under the root
      next hpp =>
      have hc := Option.some.inj h
      have hst := congrArg Prod.fst hc
      have hres := congrArg Prod.snd hc
      simp only [LMDeviceGroupOld.add_obj] at hst hres
      refine ⟨[{ g with
        name := some (lastSegStr g.full_path)
        parent_id := some 1
        id := some st.nextId }], some 1, st.nextId, ?_, by simp, ?_, ?_, by simp⟩
      · rw [← hst]
      · rw [← hres]
        simp
      · rw [← hres]
    · -- parent found remotely, or recursion
      next hpp =>
      split at h
      · next parent_group hpg =>
        have hc := Option.some.inj h
        have hst := congrArg Prod.fst hc
        have hres := congrArg Prod.snd hc
        simp only [LMDeviceGroupOld.add_obj] at hst hres
        refine ⟨[{ g with
          name := some (lastSegStr g.full_path)
          parent_id := parent_group.id
          id := some st.nextId }], parent_group.id,
          st.nextId, ?_, by simp, ?_, ?_, by simp⟩
        · rw [← hst]
        · rw [← hres]
          simp
        · rw [← hres]
      · next hpg =>
        split at h
        · next stp parent hr =>
          have ihr := ih st stp
            { g with
              name := some (lastSegStr g.full_path)
              full_path := parentPath g.full_path } parent hr
          obtain ⟨Lp, pidp, nidp, hrem, hne, hlast, hresp, hshort⟩ := ihr
          have hc := Option.some.inj h
          have hst := congrArg Prod.fst hc
          have hres := congrArg Prod.snd hc
          simp only [LMDeviceGroupOld.add_obj] at hst hres
          refine ⟨Lp ++ [{ g with
            name := some (lastSegStr g.full_path)
            parent_id := parent.id
            id := some stp.nextId }], parent.id, stp.nextId,
            ?_, by simp, ?_, ?_, ?_⟩
          · rw [← hst]
            simp only [hrem, List.append_assoc]
          · rw [← hres, List.getLast?_concat]
          · rw [← hres]
          · rw [List.dropLast_concat]
            intro x hx
            have hppne : parentPath g.full_path ≠ "" := hpp
            have hplt := parentPath_length_lt g.full_path hppne
            have hLp : Lp.dropLast ++ [Lp.getLast hne] = Lp :=
              List.dropLast_append_getLast hne
            have hgl : Lp.getLast hne = parent := by
              have := List.getLast?_eq_getLast Lp hne
              rw [hlast] at this
              exact (Option.some.inj this).symm
            rw [← hLp] at hx
            rcases List.mem_append.mp hx with hx1 | hx2
            · have := hshort x hx1
              simp only at this
              omega
            · have hxp : x = parent := by
                rw [hgl] at hx2
                simpa using hx2
              rw [hxp, hresp]
              simp only
              omega
        · exact absurd h (by simp)

/-- C5: reconciliation of a device group is idempotent.  If the remote does
not already match the desired state (it is missing, or found but unequal),
the first run reports changed true, and a second identical run against the
remote produced by the first run finds a matching object and reports
changed false with no further mutation. -/
theorem c5_idempotent (p : LMDeviceGroupOld.DGParams) (st0 : LMDeviceGroupOld.DGState)
    (h : ∀ f, LMDeviceGroupOld.find_obj st0 (LMDeviceGroupOld.get_object p).full_path =
        some f →
      LMDeviceGroupOld.compare_obj (LMDeviceGroupOld.get_object p) f = false) :
    ∃ st1, LMDeviceGroupOld.ensure_present false p st0 = some (st1, true) ∧
      (LMDeviceGroupOld.ensure_present false p st1).map (fun r => r.2) = some false := by
  have hstrip : lstripSlash (LMDeviceGroupOld.get_object p).full_path =
      (LMDeviceGroupOld.get_object p).full_path := by
    rw [get_object_full_path]
    exact lstripSlash_idem _
  have hsrv := get_object_server_fields p
  cases hf : LMDeviceGroupOld.find_obj st0 (LMDeviceGroupOld.get_object p).full_path with
  | none =>
    have htot := create_device_group_total
      (numSegs (LMDeviceGroupOld.get_object p).full_path) st0
      (LMDeviceGroupOld.get_object p) (le_refl _)
    obtain ⟨pr, hpr⟩ := Option.isSome_iff_exists.mp htot
    obtain ⟨stc, res⟩ := pr
    obtain ⟨L, pid, nid, hrem, hne, hlast, hres, hshort⟩ :=
      create_device_group_spec _ _ _ _ _ hpr
    have hLd : L.dropLast ++ [L.getLast hne] = L := List.dropLast_append_getLast hne
    have hgl : L.getLast hne = res := by
      have hq := List.getLast?_eq_getLast L hne
      rw [hlast] at hq
      exact (Option.some.inj hq).symm
    have h0 : st0.remote.find?
        (fun item => item.full_path == lstripSlash
          (LMDeviceGroupOld.get_object p).full_path) = none := hf
    have hd : L.dropLast.find?
        (fun item => item.full_path == lstripSlash
          (LMDeviceGroupOld.get_object p).full_path) = none := by
      rw [List.find?_eq_none]
      intro x hx
      have hlen := hshort x hx
      rw [hstrip]
      intro hb
      have hxe := eq_of_beq hb
      rw [hxe] at hlen
      omega
    have hpres : (res.full_path == lstripSlash
        (LMDeviceGroupOld.get_object p).full_path) = true := by
      rw [hstrip, hres]
      exact beq_self_eq_true _
    have hfind2 : LMDeviceGroupOld.find_obj stc
        (LMDeviceGroupOld.get_object p).full_path = some res := by
      unfold LMDeviceGroupOld.find_obj
      rw [hrem, List.find?_append, h0, ← hLd, List.find?_append, hd, hgl]
      simp [List.find?, hpres]
    have hcmp2 : LMDeviceGroupOld.compare_obj (LMDeviceGroupOld.get_object p) res = true := by
      rw [hres]
      exact compare_obj_immutable _ (some nid) (some (lastSegStr
        (LMDeviceGroupOld.get_object p).full_path)) pid hsrv.1 hsrv.2.1 hsrv.2.2
    refine ⟨stc, ?_, ?_⟩
    · simp [LMDeviceGroupOld.ensure_present, hf, hpr]
    · simp [LMDeviceGroupOld.ensure_present, hfind2, hcmp2]
  | some f =>
    have hcmp := h f hf
    refine ⟨LMDeviceGroupOld.update_obj st0
      (LMDeviceGroupOld.set_update_fields (LMDeviceGroupOld.get_object p) f), ?_, ?_⟩
    · simp [LMDeviceGroupOld.ensure_present, hf, hcmp]
    · have hfind2 : LMDeviceGroupOld.find_obj
          (LMDeviceGroupOld.update_obj st0
            (LMDeviceGroupOld.set_update_fields (LMDeviceGroupOld.get_object p) f))
          (LMDeviceGroupOld.get_object p).full_path =
          some (LMDeviceGroupOld.set_update_fields (LMDeviceGroupOld.get_object p) f) := by
        show (st0.remote.map (fun item =>
            if item.id == (LMDeviceGroupOld.set_update_fields
              (LMDeviceGroupOld.get_object p) f).id then
              LMDeviceGroupOld.set_update_fields (LMDeviceGroupOld.get_object p) f
            else item)).find?
          (fun item => item.full_path ==
            lstripSlash (LMDeviceGroupOld.get_object p).full_path) =
          some (LMDeviceGroupOld.set_update_fields (LMDeviceGroupOld.get_object p) f)
        apply find?_map_update _ _ f
          (LMDeviceGroupOld.set_update_fields (LMDeviceGroupOld.get_object p) f) hf rfl
        rw [hstrip]
        exact beq_self_eq_true _
      have hcmp2 : LMDeviceGroupOld.compare_obj (LMDeviceGroupOld.get_object p)
          (LMDeviceGroupOld.set_update_fields (LMDeviceGroupOld.get_object p) f) = true :=
        compare_obj_immutable _ f.id f.name f.parent_id hsrv.1 hsrv.2.1 hsrv.2.2
      simp [LMDeviceGroupOld.ensure_present, hfind2, hcmp2]

/-- c5 witness: the theorem applied at a concrete desired state and an
empty remote, discharging the hypothesis there. -/
theorem c5_witness :
    ∃ st1, LMDeviceGroupOld.ensure_present false dgParamsAB dgStEmpty = some (st1, true) ∧
      (LMDeviceGroupOld.ensure_present false dgParamsAB st1).map (fun r => r.2) =
        some false :=
  c5_idempotent dgParamsAB dgStEmpty (by
    intro f hf
    exact Option.noConfusion hf)
